import Mathlib

/-!
# Verification of the solana-dao-program client encoding layer

Shallow embedding of the instruction-encoding and transaction-assembly
layer of the `solana-dao-program` repository, covering:

* the binary encoder (`serializeString`, the BN-based 8-byte little-endian
  integer encoding) from `src/unnamed/part_000` and `src/examples/client.js`;
* the five instruction serializers (`serializeCreateDaoInstruction`,
  `serializeCreateProposalInstruction`, `serializeVoteInstruction`,
  `serializeFeaturedInstruction`, `serializeModulesInstruction`);
* the webapp transaction builders (`createDaoTransaction`,
  `createProposalTransaction`, `createVoteTransaction`,
  `createFeaturedTransaction`, `createModuleTransaction`) with their
  account lists, partial signing and price-override handling;
* the fee computations of the example client (`createDao`,
  `createFeatured`, `activateModule`).

JavaScript `Buffer`s are modelled as `List Nat` of byte values,
JavaScript strings as Lean `String` (sequences of Unicode scalar
values), and the external effects of a builder (price fetch, keypair
generation, recent-blockhash fetch) as an explicit `BuildEnv` of values
together with a trace of `Event`s recording which effects actually ran.
-/

namespace SolanaDao

/-- Little-endian base-256 digits of `n`, exactly `len` bytes
(zero-padded).  This is the byte layout produced by bn.js
`toArray('le', len)` for a magnitude that fits, and by
`Buffer.writeUInt32LE` for `len = 4`. -/
def leBytes : Nat → Nat → List Nat
  | _, 0 => []
  | n, len + 1 => n % 256 :: leBytes (n / 256) len

/-- Read back a little-endian byte list as a natural number. -/
def decodeLE (bs : List Nat) : Nat :=
  bs.foldr (fun b acc => b + 256 * acc) 0

/-- UTF-8 encoding of a single Unicode scalar value, as byte values. -/
def utf8Char (c : Char) : List Nat :=
  let n := c.toNat
  if n < 0x80 then [n]
  else if n < 0x800 then [0xC0 + n / 64, 0x80 + n % 64]
  else if n < 0x10000 then [0xE0 + n / 4096, 0x80 + n / 64 % 64, 0x80 + n % 64]
  else [0xF0 + n / 262144, 0x80 + n / 4096 % 64, 0x80 + n / 64 % 64, 0x80 + n % 64]

/-- UTF-8 encoding of a character sequence. -/
def utf8Bytes (cs : List Char) : List Nat :=
  cs.flatMap utf8Char

/-- Number of UTF-16 code units a character occupies: this is what
JavaScript's `String.prototype.length` counts. -/
def utf16Units (c : Char) : Nat :=
  if c.toNat < 0x10000 then 1 else 2

/-- JavaScript `str.length`: the UTF-16 code-unit count of the string. -/
def jsLength (cs : List Char) : Nat :=
  (cs.map utf16Units).sum

/-- Node.js `buf.write(str, off)` payload: encodes characters to UTF-8
into a region of `cap` remaining bytes, stopping at the first character
whose complete encoding does not fit (partially encoded characters are
never written). -/
def bufWriteGo (cap : Nat) : List Char → List Nat
  | [] => []
  | c :: cs =>
    if (utf8Char c).length ≤ cap then
      utf8Char c ++ bufWriteGo (cap - (utf8Char c).length) cs
    else []

/-- The `cap`-byte region of a zero-filled `Buffer` after
`buf.write(str, off)` wrote into it: the written prefix followed by the
remaining zero fill. -/
def bufWrite (cap : Nat) (cs : List Char) : List Nat :=
  bufWriteGo cap cs ++ List.replicate (cap - (bufWriteGo cap cs).length) 0

/-- `serializeString` from `src/unnamed/part_000` (identical in
`src/examples/client.js`):

    const buf = Buffer.alloc(4 + str.length);
    buf.writeUInt32LE(str.length, 0);
    buf.write(str, 4);
    return buf;

`str.length` is the UTF-16 code-unit count, the buffer is zero-filled by
`alloc`, and `buf.write` stores the UTF-8 bytes that fit entirely. -/
def serializeString (s : String) : List Nat :=
  leBytes (jsLength s.data) 4 ++ bufWrite (jsLength s.data) s.data

/-- Modelled from the spec's words, for comparison with
`serializeString`: a 4-byte unsigned little-endian length equal to the
UTF-8 byte length of `s`, immediately followed by the raw UTF-8 bytes of
`s`, with no terminator and no padding. -/
def specEncodeString (s : String) : List Nat :=
  leBytes (utf8Bytes s.data).length 4 ++ utf8Bytes s.data

inductive EncErr : Type where
  | byteArrayTooLong : EncErr
deriving DecidableEq, Repr

instance : DecidableEq (Except EncErr (List Nat)) := fun a b =>
  match a, b with
  | .ok x, .ok y =>
    if h : x = y then .isTrue (by rw [h]) else .isFalse (by simp [h])
  | .ok _, .error _ => .isFalse (by simp)
  | .error _, .ok _ => .isFalse (by simp)
  | .error .byteArrayTooLong, .error .byteArrayTooLong => .isTrue rfl

/-- bn.js `new BN(n.toString()).toArray('le', len)`: bn.js stores a sign
and a magnitude; `toArray` asserts that the magnitude's byte length is
at most `len` (throwing `byte array longer than desired length`
otherwise) and then emits the magnitude's little-endian bytes, ignoring
the sign. -/
def bnToArrayLE (n : Int) (len : Nat) : Except EncErr (List Nat) :=
  if n.natAbs < 256 ^ len then .ok (leBytes n.natAbs len)
  else .error .byteArrayTooLong

/-- Modelled from the spec's words, for comparison with `bnToArrayLE`:
the 8-byte little-endian two's-complement encoding of a signed 64-bit
value. -/
def twosComplementLE64 (n : Int) : List Nat :=
  leBytes (n % 2 ^ 64).toNat 8

/-- `serializeCreateDaoInstruction` from `src/unnamed/part_000`
(identical in `src/examples/client.js`): tag byte 0, the eleven
length-prefixed strings in declaration order, then the u64 SOL price. -/
def serializeCreateDaoInstruction (name description discordServer twitter
    telegram instagram tiktok website treasury profile tokenAddress : String)
    (solPriceUsd : Nat) : Except EncErr (List Nat) :=
  (bnToArrayLE solPriceUsd 8).map fun solPriceBuf =>
    [0] ++ serializeString name ++ serializeString description ++
    serializeString discordServer ++ serializeString twitter ++
    serializeString telegram ++ serializeString instagram ++
    serializeString tiktok ++ serializeString website ++
    serializeString treasury ++ serializeString profile ++
    serializeString tokenAddress ++ solPriceBuf

/-- `serializeCreateProposalInstruction` from `src/unnamed/part_000`
(identical in `src/examples/client.js`): tag byte 1, four
length-prefixed strings, then the two i64 timestamps encoded by
`BN.toArray('le', 8)`. -/
def serializeCreateProposalInstruction (name description daoId podId : String)
    (startTime endTime : Int) : Except EncErr (List Nat) :=
  match bnToArrayLE startTime 8, bnToArrayLE endTime 8 with
  | .ok startTimeBuf, .ok endTimeBuf =>
    .ok ([1] ++ serializeString name ++ serializeString description ++
      serializeString daoId ++ serializeString podId ++ startTimeBuf ++
      endTimeBuf)
  | .error e, _ => .error e
  | _, .error e => .error e

/-- `serializeVoteInstruction` from `src/unnamed/part_000` (identical in
`src/examples/client.js`): tag byte 2, then the length-prefixed vote
value and proposal id.  There is no validation of the vote value. -/
def serializeVoteInstruction (voteValue proposalId : String) : List Nat :=
  [2] ++ serializeString voteValue ++ serializeString proposalId

/-- `serializeFeaturedInstruction` from `src/unnamed/part_000` (the
webapp variant, without the `days` field): tag byte 3, the
length-prefixed DAO id, then the u64 SOL price. -/
def serializeFeaturedInstruction (daoId : String) (solPriceUsd : Nat) :
    Except EncErr (List Nat) :=
  (bnToArrayLE solPriceUsd 8).map fun solPriceBuf =>
    [3] ++ serializeString daoId ++ solPriceBuf

/-- `serializeModulesInstruction` from `src/unnamed/part_000` (identical
in `src/examples/client.js`): tag byte 4, the length-prefixed DAO id and
module type, then the u64 SOL price. -/
def serializeModulesInstruction (daoId moduleType : String)
    (solPriceUsd : Nat) : Except EncErr (List Nat) :=
  (bnToArrayLE solPriceUsd 8).map fun solPriceBuf =>
    [4] ++ serializeString daoId ++ serializeString moduleType ++ solPriceBuf

namespace Client

/-- `serializeFeaturedInstruction` from `src/examples/client.js` (the
example-client variant, which carries a u64 `days` field between the DAO
id and the SOL price). -/
def serializeFeaturedInstruction (daoId : String) (days solPriceUsd : Nat) :
    Except EncErr (List Nat) :=
  match bnToArrayLE days 8, bnToArrayLE solPriceUsd 8 with
  | .ok daysBuf, .ok solPriceBuf =>
    .ok ([3] ++ SolanaDao.serializeString daoId ++ daysBuf ++ solPriceBuf)
  | .error e, _ => .error e
  | _, .error e => .error e

/-- `serializeModulesInstruction` from `src/examples/client.js`
(textually identical to the webapp variant). -/
def serializeModulesInstruction (daoId moduleType : String)
    (solPriceUsd : Nat) : Except EncErr (List Nat) :=
  (SolanaDao.bnToArrayLE solPriceUsd 8).map fun solPriceBuf =>
    [4] ++ SolanaDao.serializeString daoId ++
    SolanaDao.serializeString moduleType ++ solPriceBuf

end Client

/-- Program id from `src/unnamed/part_000`. -/
def PROGRAM_ID : String := "7Mof2gtQh9478eWLAFTbzk9hpwsSjsaEsGiBGD42dMQj"

/-- Fee recipient address from `src/unnamed/part_000`. -/
def FEE_ADDRESS : String := "BAGek78CDYQ8phuDqNk7sQzD7LdJeKkb7jD4y2AyR3tJ"

/-- `SystemProgram.programId` of `@solana/web3.js`. -/
def systemProgramId : String := "11111111111111111111111111111111"

/-- The base58 alphabet used by `bs58.decode` inside the
`@solana/web3.js` `PublicKey` constructor. -/
def base58Alphabet : List Char :=
  "123456789ABCDEFGHJKLMNPQRSTUVWXYZabcdefghijkmnopqrstuvwxyz".data

/-- Digit value of a character in an alphabet list, `none` when the
character is not in the alphabet. -/
def base58Index : List Char → Char → Option Nat
  | [], _ => none
  | a :: as, c => if a = c then some 0 else (base58Index as c).map (· + 1)

/-- Value of a base58 digit string as a natural number; `none` exactly
when some character is outside the alphabet (where `bs58.decode`
throws). -/
def base58Value (cs : List Char) : Option Nat :=
  cs.foldl
    (fun acc c =>
      match acc, base58Index base58Alphabet c with
      | some v, some d => some (v * 58 + d)
      | _, _ => none)
    (some 0)

/-- Leading `'1'` characters of a base58 string; each contributes one
leading zero byte to the decoded array. -/
def countLeadingOnes : List Char → Nat
  | [] => 0
  | c :: cs => if c = '1' then countLeadingOnes cs + 1 else 0

/-- Minimal big-endian byte count of `n`, with an explicit iteration
bound (`fuel`); exact whenever `n < 256 ^ fuel`. -/
def beByteLen : Nat → Nat → Nat
  | 0, _ => 0
  | fuel + 1, n => if n = 0 then 0 else beByteLen fuel (n / 256) + 1

/-- Length of `bs58.decode(s)`: leading-`'1'` zero bytes plus the
minimal big-endian bytes of the digits' value; `none` when decoding
throws on a non-alphabet character.  The digit count bounds the byte
count (`58 ^ len ≤ 256 ^ len`), so it serves as the iteration bound. -/
def base58ByteLength (cs : List Char) : Option Nat :=
  (base58Value cs).map fun v => countLeadingOnes cs + beByteLen cs.length v

/-- The `@solana/web3.js` `new PublicKey(string)` acceptance test: the
string must base58-decode to exactly 32 bytes, otherwise the
constructor throws `Invalid public key input`. -/
def isValidPublicKey (s : String) : Bool :=
  base58ByteLength s.data == some 32

/-- One entry of a `TransactionInstruction`'s `keys` list. -/
structure AccountMeta where
  pubkey : String
  isSigner : Bool
  isWritable : Bool
deriving DecidableEq, Repr

/-- A `TransactionInstruction` of `@solana/web3.js`: ordered account
references, target program id, and the encoded data buffer. -/
structure TransactionInstruction where
  keys : List AccountMeta
  programId : String
  data : List Nat
deriving DecidableEq, Repr

/-- A `Transaction` envelope: its instructions, recent blockhash, fee
payer, and the set of public keys whose signatures are attached
(`partialSign` appends to it). -/
structure Transaction where
  instructions : List TransactionInstruction
  recentBlockhash : String
  feePayer : Option String
  signedBy : List String
deriving DecidableEq, Repr

/-- Result of a webapp builder: the assembled transaction together with
the freshly generated record account's public key. -/
structure BuildResult where
  transaction : Transaction
  account : String
deriving DecidableEq, Repr

/-- Errors a webapp builder can raise. -/
inductive BuildError : Type where
  | walletNotConnected : BuildError
  | validationError : BuildError
  | encodingOverflow : BuildError
  | invalidPublicKey : BuildError
deriving DecidableEq, Repr

/-- External effects a builder may perform, recorded in execution
order: fetching the live SOL price (`getSolPrice`), generating the new
record keypair (`Keypair.generate`), and serializing the instruction
data. -/
inductive Event : Type where
  | fetchPrice : Event
  | generateKeypair : Event
  | encode : Event
deriving DecidableEq, Repr

/-- The values the environment supplies to one builder call: the price
`getSolPrice` would return, the public key `Keypair.generate` produces,
and the recent blockhash the connection returns. -/
structure BuildEnv where
  fetchedPrice : Nat
  generatedKey : String
  blockhash : String
deriving DecidableEq, Repr

instance : DecidableEq (Except BuildError BuildResult) := fun a b =>
  match a, b with
  | .ok x, .ok y =>
    if h : x = y then .isTrue (by rw [h]) else .isFalse (by simp [h])
  | .ok _, .error _ => .isFalse (by simp)
  | .error _, .ok _ => .isFalse (by simp)
  | .error x, .error y =>
    if h : x = y then .isTrue (by rw [h]) else .isFalse (by simp [h])

/-- `if (!solPriceUsd) { solPriceUsd = await getSolPrice(); }`: a missing
override (`undefined`) and an override of `0` are both falsy, so both
trigger the live fetch.  Returns the resolved price and the fetch events
performed. -/
def resolvePrice (solPriceUsd : Option Nat) (env : BuildEnv) :
    Nat × List Event :=
  match solPriceUsd with
  | none => (env.fetchedPrice, [.fetchPrice])
  | some p => if p = 0 then (env.fetchedPrice, [.fetchPrice]) else (p, [])

/-- Assembly steps shared verbatim by every webapp builder: build the
`TransactionInstruction` from the keys and data, wrap it in a
`Transaction`, set `recentBlockhash` and `feePayer`, and `partialSign`
with the generated account. -/
def assemble (env : BuildEnv) (w : String) (keys : List AccountMeta)
    (data : List Nat) : BuildResult :=
  { transaction :=
      { instructions := [{ keys := keys, programId := PROGRAM_ID, data := data }]
        recentBlockhash := env.blockhash
        feePayer := some w
        signedBy := [env.generatedKey] }
    account := env.generatedKey }

/-- `createDaoTransaction` from `src/unnamed/part_000`: wallet check,
price resolution, keypair generation, serialization, then assembly with
the CreateDao account list. -/
def createDaoTransaction (env : BuildEnv) (wallet : Option String)
    (name description discordServer twitter telegram instagram tiktok
     website treasury profile tokenAddress : String)
    (solPriceUsd : Option Nat) :
    Except BuildError BuildResult × List Event :=
  match wallet with
  | none => (.error .walletNotConnected, [])
  | some w =>
    let pr := resolvePrice solPriceUsd env
    let evs := pr.2 ++ [Event.generateKeypair, Event.encode]
    match serializeCreateDaoInstruction name description discordServer twitter
        telegram instagram tiktok website treasury profile tokenAddress pr.1 with
    | .error _ => (.error .encodingOverflow, evs)
    | .ok data =>
      let keys : List AccountMeta :=
        [⟨w, true, true⟩, ⟨env.generatedKey, true, true⟩,
         ⟨systemProgramId, false, false⟩, ⟨FEE_ADDRESS, false, true⟩]
      (.ok (assemble env w keys data), evs)

/-- `createProposalTransaction` from `src/unnamed/part_000`: wallet
check, keypair generation, serialization, then assembly with
`new PublicKey(daoId)` — which throws on a string that does not
base58-decode to 32 bytes — inserted as the third (read-only) account. -/
def createProposalTransaction (env : BuildEnv) (wallet : Option String)
    (name description daoId podId : String) (startTime endTime : Int) :
    Except BuildError BuildResult × List Event :=
  match wallet with
  | none => (.error .walletNotConnected, [])
  | some w =>
    let evs := [Event.generateKeypair, Event.encode]
    match serializeCreateProposalInstruction name description daoId podId
        startTime endTime with
    | .error _ => (.error .encodingOverflow, evs)
    | .ok data =>
      if isValidPublicKey daoId then
        let keys : List AccountMeta :=
          [⟨w, true, true⟩, ⟨env.generatedKey, true, true⟩,
           ⟨daoId, false, false⟩,
           ⟨systemProgramId, false, false⟩, ⟨FEE_ADDRESS, false, true⟩]
        (.ok (assemble env w keys data), evs)
      else (.error .invalidPublicKey, evs)

/-- `createVoteTransaction` from `src/unnamed/part_000`: wallet check,
keypair generation, serialization, assembly.  The source performs no
validation of `voteValue`; the only failure after the wallet check is
`new PublicKey(proposalId)` throwing on a string that does not
base58-decode to 32 bytes (after serialization has already run). -/
def createVoteTransaction (env : BuildEnv) (wallet : Option String)
    (voteValue proposalId : String) :
    Except BuildError BuildResult × List Event :=
  match wallet with
  | none => (.error .walletNotConnected, [])
  | some w =>
    let data := serializeVoteInstruction voteValue proposalId
    if isValidPublicKey proposalId then
      let keys : List AccountMeta :=
        [⟨w, true, true⟩, ⟨env.generatedKey, true, true⟩,
         ⟨proposalId, false, false⟩,
         ⟨systemProgramId, false, false⟩, ⟨FEE_ADDRESS, false, true⟩]
      (.ok (assemble env w keys data), [Event.generateKeypair, Event.encode])
    else (.error .invalidPublicKey, [Event.generateKeypair, Event.encode])

/-- `createFeaturedTransaction` from `src/unnamed/part_000`: wallet
check, price resolution, keypair generation, serialization, then
assembly with `new PublicKey(daoId)` (throws on malformed ids) third. -/
def createFeaturedTransaction (env : BuildEnv) (wallet : Option String)
    (daoId : String) (solPriceUsd : Option Nat) :
    Except BuildError BuildResult × List Event :=
  match wallet with
  | none => (.error .walletNotConnected, [])
  | some w =>
    let pr := resolvePrice solPriceUsd env
    let evs := pr.2 ++ [Event.generateKeypair, Event.encode]
    match serializeFeaturedInstruction daoId pr.1 with
    | .error _ => (.error .encodingOverflow, evs)
    | .ok data =>
      if isValidPublicKey daoId then
        let keys : List AccountMeta :=
          [⟨w, true, true⟩, ⟨env.generatedKey, true, true⟩,
           ⟨daoId, false, false⟩,
           ⟨systemProgramId, false, false⟩, ⟨FEE_ADDRESS, false, true⟩]
        (.ok (assemble env w keys data), evs)
      else (.error .invalidPublicKey, evs)

/-- `createModuleTransaction` from `src/unnamed/part_000`: wallet check,
then module-type validation (`"POD"`/`"POL"`), then price resolution,
keypair generation, serialization, then assembly with
`new PublicKey(daoId)` (throws on malformed ids) third.  Validation
failure happens before any event: no price fetch, no keypair, no
encoding. -/
def createModuleTransaction (env : BuildEnv) (wallet : Option String)
    (daoId moduleType : String) (solPriceUsd : Option Nat) :
    Except BuildError BuildResult × List Event :=
  match wallet with
  | none => (.error .walletNotConnected, [])
  | some w =>
    if moduleType ≠ "POD" ∧ moduleType ≠ "POL" then
      (.error .validationError, [])
    else
      let pr := resolvePrice solPriceUsd env
      let evs := pr.2 ++ [Event.generateKeypair, Event.encode]
      match serializeModulesInstruction daoId moduleType pr.1 with
      | .error _ => (.error .encodingOverflow, evs)
      | .ok data =>
        if isValidPublicKey daoId then
          let keys : List AccountMeta :=
            [⟨w, true, true⟩, ⟨env.generatedKey, true, true⟩,
             ⟨daoId, false, false⟩,
             ⟨systemProgramId, false, false⟩, ⟨FEE_ADDRESS, false, true⟩]
          (.ok (assemble env w keys data), evs)
        else (.error .invalidPublicKey, evs)

/-- JavaScript `Math.round`: rounds to the nearest integer, halves
toward positive infinity.  The double-precision arithmetic of the source
is modelled by exact rational arithmetic. -/
def jsRound (x : ℚ) : ℤ := ⌊x + 1 / 2⌋

namespace Client

/-- `expectedFeeInSol` computed by `createDao` in
`src/examples/client.js`: `20 / (sol_price_usd / 100)`. -/
def daoExpectedFeeInSol (p : Nat) : ℚ := 20 / ((p : ℚ) / 100)

/-- `expectedFeeInLamports` computed by `createDao`:
`Math.round(expectedFeeInSol * 1_000_000_000)`. -/
def daoExpectedFeeInLamports (p : Nat) : ℤ :=
  jsRound (daoExpectedFeeInSol p * 1000000000)

/-- `totalUsdFee` computed by `createFeatured`: `20 * days`. -/
def featuredTotalUsdFee (days : Nat) : Nat := 20 * days

/-- `expectedFeeInSol` computed by `createFeatured`:
`totalUsdFee / (sol_price_usd / 100)`. -/
def featuredExpectedFeeInSol (days p : Nat) : ℚ :=
  (featuredTotalUsdFee days : ℚ) / ((p : ℚ) / 100)

/-- `expectedFeeInLamports` computed by `createFeatured`. -/
def featuredExpectedFeeInLamports (days p : Nat) : ℤ :=
  jsRound (featuredExpectedFeeInSol days p * 1000000000)

/-- `expectedFeeInSol` computed by `activateModule` (same text as in
`createDao`). -/
def moduleExpectedFeeInSol (p : Nat) : ℚ := 20 / ((p : ℚ) / 100)

/-- `expectedFeeInLamports` computed by `activateModule`. -/
def moduleExpectedFeeInLamports (p : Nat) : ℤ :=
  jsRound (moduleExpectedFeeInSol p * 1000000000)

/-- `sol_price_usd = null` default with `if (sol_price_usd === null)`:
the example client fetches only on an exactly-null override, so an
explicit `0` is kept. -/
def resolvePriceClient (solPriceUsd : Option Nat) (env : BuildEnv) :
    Nat × List Event :=
  match solPriceUsd with
  | none => (env.fetchedPrice, [.fetchPrice])
  | some p => (p, [])

/-- Program id from `src/examples/client.js` (the example client
deploys against a different program than the webapp source). -/
def programId : String := "BLFfy2mhNyhwHB135oux43d4EtffJsmJ4LxSX66e7tHk"

/-- `activateModule` from `src/examples/client.js`: module-type
validation first, then price resolution, fee computation (pure),
keypair generation, serialization, and assembly of the instruction with
`new PublicKey(daoId)` (throws on malformed ids) third.  Sending the
transaction is network I/O outside this model, so the built
`TransactionInstruction` is the result. -/
def activateModule (env : BuildEnv) (payer daoId moduleType : String)
    (solPriceUsd : Option Nat) :
    Except BuildError TransactionInstruction × List Event :=
  if moduleType ≠ "POD" ∧ moduleType ≠ "POL" then
    (.error .validationError, [])
  else
    let pr := resolvePriceClient solPriceUsd env
    let evs := pr.2 ++ [Event.generateKeypair, Event.encode]
    match serializeModulesInstruction daoId moduleType pr.1 with
    | .error _ => (.error .encodingOverflow, evs)
    | .ok data =>
      if isValidPublicKey daoId then
        let keys : List AccountMeta :=
          [⟨payer, true, true⟩, ⟨env.generatedKey, true, true⟩,
           ⟨daoId, false, false⟩,
           ⟨systemProgramId, false, false⟩, ⟨FEE_ADDRESS, false, true⟩]
        (.ok { keys := keys, programId := programId, data := data }, evs)
      else (.error .invalidPublicKey, evs)

end Client

/-- Modelled from the spec: `native-currency fee =
ceil(fiat_target * fiat_scale / unit_price)`, with the fiat target in
dollars, the unit price in cents per SOL, and the result in lamports
(so the scale factor is 100 cents per dollar times 10^9 lamports per
SOL).  For comparison with the fee the client code computes. -/
def specCeilFeeLamports (targetUsd p : Nat) : ℤ :=
  ⌈(targetUsd * 100 * 1000000000 : ℚ) / p⌉

theorem leBytes_length (n k : Nat) : (leBytes n k).length = k := by
  induction k generalizing n with
  | zero => rfl
  | succ k ih => simp [leBytes, ih]

theorem decodeLE_cons (b : Nat) (bs : List Nat) :
    decodeLE (b :: bs) = b + 256 * decodeLE bs := rfl

theorem decodeLE_leBytes (n k : Nat) : decodeLE (leBytes n k) = n % 256 ^ k := by
  induction k generalizing n with
  | zero => simp [leBytes, decodeLE, Nat.mod_one]
  | succ k ih =>
    rw [leBytes, decodeLE_cons, ih, Nat.pow_succ', Nat.mod_mul]

theorem utf8Bytes_nil : utf8Bytes [] = [] := rfl

theorem utf8Bytes_cons (c : Char) (cs : List Char) :
    utf8Bytes (c :: cs) = utf8Char c ++ utf8Bytes cs := rfl

theorem bufWriteGo_of_le (cs : List Char) (cap : Nat)
    (h : (utf8Bytes cs).length ≤ cap) : bufWriteGo cap cs = utf8Bytes cs := by
  induction cs generalizing cap with
  | nil => rfl
  | cons c cs ih =>
    have hlen : (utf8Char c).length + (utf8Bytes cs).length ≤ cap := by
      simpa [utf8Bytes_cons, List.length_append] using h
    rw [utf8Bytes_cons, bufWriteGo, if_pos (by omega : (utf8Char c).length ≤ cap),
      ih (cap - (utf8Char c).length) (by omega)]

theorem bufWrite_of_eq (cs : List Char) (cap : Nat)
    (h : (utf8Bytes cs).length = cap) : bufWrite cap cs = utf8Bytes cs := by
  rw [bufWrite, bufWriteGo_of_le cs cap (le_of_eq h), h, Nat.sub_self,
    List.replicate_zero, List.append_nil]

theorem utf8Char_ascii {c : Char} (h : c.toNat < 128) : utf8Char c = [c.toNat] := by
  simp only [utf8Char]
  rw [if_pos h]

theorem utf8Bytes_ascii {cs : List Char} (h : ∀ c ∈ cs, c.toNat < 128) :
    utf8Bytes cs = cs.map Char.toNat := by
  induction cs with
  | nil => rfl
  | cons c cs ih =>
    rw [utf8Bytes_cons, utf8Char_ascii (h c (by simp)), List.map_cons,
      ih (fun x hx => h x (by simp [hx])), List.singleton_append]

theorem jsLength_ascii {cs : List Char} (h : ∀ c ∈ cs, c.toNat < 128) :
    jsLength cs = cs.length := by
  induction cs with
  | nil => rfl
  | cons c cs ih =>
    have h1 : utf16Units c = 1 := by
      rw [utf16Units, if_pos (by have := h c (by simp); omega)]
    simp only [jsLength, List.map_cons, List.sum_cons] at *
    rw [h1, ih (fun x hx => h x (by simp [hx])), List.length_cons]
    omega

theorem serializeString_ascii {s : String} (h : ∀ c ∈ s.data, c.toNat < 128) :
    serializeString s = specEncodeString s := by
  have hlen : (utf8Bytes s.data).length = s.data.length := by
    rw [utf8Bytes_ascii h, List.length_map]
  rw [serializeString, specEncodeString, jsLength_ascii h, hlen,
    bufWrite_of_eq s.data s.data.length hlen]

theorem bufWriteGo_length_le (cs : List Char) (cap : Nat) :
    (bufWriteGo cap cs).length ≤ cap := by
  induction cs generalizing cap with
  | nil => simp [bufWriteGo]
  | cons c cs ih =>
    rw [bufWriteGo]
    split
    · have := ih (cap - (utf8Char c).length)
      simp only [List.length_append]
      omega
    · simp

theorem bufWrite_length (cs : List Char) (cap : Nat) :
    (bufWrite cap cs).length = cap := by
  have := bufWriteGo_length_le cs cap
  rw [bufWrite]
  simp only [List.length_append, List.length_replicate]
  omega

theorem serializeString_length (s : String) :
    (serializeString s).length = 4 + jsLength s.data := by
  rw [serializeString]
  simp [leBytes_length, bufWrite_length]

/-- **C1** (corrected, counterexample): the string encoder's length
prefix is the JavaScript UTF-16 code-unit count, not the UTF-8 byte
length.  On the one-character string `"é"` (UTF-8 bytes `C3 A9`) the
encoder produces `01 00 00 00 00` — prefix 1 and a zero payload byte
(the two-byte character does not fit the one-byte region, so
`buf.write` writes nothing) — not the spec's `02 00 00 00 C3 A9`. -/
theorem C1_counterexample :
    serializeString "é" = [1, 0, 0, 0, 0] ∧
    specEncodeString "é" = [2, 0, 0, 0, 195, 169] ∧
    serializeString "é" ≠ specEncodeString "é" := by
  refine ⟨by decide, by decide, by decide⟩

/-- **C1** (amended): for every string whose characters are all ASCII
(code points below 128) — where the UTF-16 code-unit count and the UTF-8
byte length coincide — the string encoder returns a 4-byte unsigned
little-endian integer equal to the UTF-8 byte length of the string,
immediately followed by the raw UTF-8 bytes, with no terminator and no
padding.  (For non-ASCII strings the prefix is the UTF-16 code-unit
count and the payload is a zero-padded truncation of the UTF-8 bytes.) -/
theorem C1_string_encoder_ascii (s : String)
    (h : ∀ c ∈ s.data, c.toNat < 128) :
    serializeString s =
      leBytes (utf8Bytes s.data).length 4 ++ utf8Bytes s.data ∧
    serializeString s = specEncodeString s := by
  exact ⟨serializeString_ascii h, serializeString_ascii h⟩

/-- **C1** witness: the amended theorem applied to the concrete ASCII
string `"for"`. -/
theorem C1_witness :
    serializeString "for" =
      leBytes (utf8Bytes "for".data).length 4 ++ utf8Bytes "for".data :=
  (C1_string_encoder_ascii "for" (by decide)).1

/-- **C2** (corrected, counterexample): building a Vote instruction with
the out-of-set vote value `"maybe"` and a well-formed proposal id (the
32-byte key `11…1`) does *not* fail with a validation error and does
*not* produce zero bytes: `createVoteTransaction` contains no vote-value
check, succeeds, and emits a 46-byte payload. -/
theorem C2_counterexample :
    (createVoteTransaction ⟨10000, "K", "H"⟩ (some "W") "maybe"
      "11111111111111111111111111111111").1.isOk = true ∧
    serializeVoteInstruction "maybe" "11111111111111111111111111111111" =
      [2, 5, 0, 0, 0, 109, 97, 121, 98, 101, 32, 0, 0, 0,
       49, 49, 49, 49, 49, 49, 49, 49, 49, 49, 49, 49, 49, 49, 49, 49,
       49, 49, 49, 49, 49, 49, 49, 49, 49, 49, 49, 49, 49, 49, 49, 49] := by
  refine ⟨by decide, by decide⟩

/-- **C2** (amended): the Vote builder performs no vote-value
validation: for every vote value (including values outside the
documented set) and every well-formed proposal id (one that
base58-decodes to 32 bytes, as `new PublicKey` requires), with a
connected wallet the build succeeds, the instruction data is exactly
the serialized vote payload, and that payload has
`9 + |vote| + |proposal_id|` bytes (never zero); the only failure paths
are a missing wallet and a malformed proposal id, and closed-set
enforcement of the vote value is left to the on-chain program. -/
theorem C2_vote_builder_never_validates (env : BuildEnv)
    (w voteValue proposalId : String)
    (hpk : isValidPublicKey proposalId = true) :
    (createVoteTransaction env (some w) voteValue proposalId).1.isOk = true ∧
    (createVoteTransaction env (some w) voteValue proposalId).1.map
        (fun r => r.transaction.instructions.map (fun i => i.data)) =
      .ok [serializeVoteInstruction voteValue proposalId] ∧
    (serializeVoteInstruction voteValue proposalId).length =
      9 + jsLength voteValue.data + jsLength proposalId.data := by
  refine ⟨?_, ?_, ?_⟩
  · simp [createVoteTransaction, hpk, assemble, Except.isOk, Except.toBool]
  · simp [createVoteTransaction, hpk, assemble, Except.map]
  · rw [serializeVoteInstruction]
    simp [serializeString_length]
    omega

/-- **C2** witness: the amended theorem applied to the out-of-set vote
value `"maybe"` and the concrete well-formed proposal id `11…1`. -/
theorem C2_witness :
    (createVoteTransaction ⟨10000, "K", "H"⟩ (some "W") "maybe"
      "11111111111111111111111111111111").1.map
        (fun r => r.transaction.instructions.map (fun i => i.data)) =
      .ok [serializeVoteInstruction "maybe" "11111111111111111111111111111111"] :=
  (C2_vote_builder_never_validates ⟨10000, "K", "H"⟩ "W" "maybe"
    "11111111111111111111111111111111" (by decide)).2.1

/-- **C3** (corrected, counterexample): the 8-byte integer encoding used
for i64 timestamps is bn.js `toArray('le', 8)`, which encodes the
*magnitude* and discards the sign: `-1` encodes as `01 00 .. 00`, not
the two's-complement `FF FF .. FF`, so negative timestamps do not
round-trip. -/
theorem C3_counterexample :
    bnToArrayLE (-1) 8 = .ok [1, 0, 0, 0, 0, 0, 0, 0] ∧
    twosComplementLE64 (-1) = [255, 255, 255, 255, 255, 255, 255, 255] ∧
    bnToArrayLE (-1) 8 ≠ .ok (twosComplementLE64 (-1)) := by
  refine ⟨by decide, by decide, by decide⟩

/-- **C3** (amended): the fixed-width integer encoder emits exactly 8
little-endian bytes of the *magnitude* of its input whenever that
magnitude fits in 64 bits — so unsigned values and non-negative signed
values round-trip exactly (and then, and only then, agree with
two's-complement) — while negative values are encoded as their absolute
value with the sign discarded; an input raises the length error, never
silent truncation, exactly when its magnitude needs more than 8 bytes. -/
theorem C3_int_encoder (n : Int) :
    bnToArrayLE n 8 =
      (if n.natAbs < 2 ^ 64 then .ok (leBytes n.natAbs 8)
       else .error .byteArrayTooLong) ∧
    (n.natAbs < 2 ^ 64 →
      (leBytes n.natAbs 8).length = 8 ∧
      decodeLE (leBytes n.natAbs 8) = n.natAbs) ∧
    (0 ≤ n → n.natAbs < 2 ^ 64 → leBytes n.natAbs 8 = twosComplementLE64 n) := by
  have h256 : (256 : Nat) ^ 8 = 2 ^ 64 := by norm_num
  refine ⟨by rw [bnToArrayLE, h256], fun h => ⟨leBytes_length _ 8, ?_⟩,
    fun h0 h => ?_⟩
  · rw [decodeLE_leBytes, h256, Nat.mod_eq_of_lt h]
  · have hn : n % 2 ^ 64 = n := Int.emod_eq_of_lt h0 (by omega)
    rw [twosComplementLE64, hn]
    congr 1
    omega

/-- **C3** witness: the amended theorem applied at `n = 3`. -/
theorem C3_witness :
    decodeLE (leBytes (Int.natAbs 3) 8) = Int.natAbs 3 ∧
    leBytes (Int.natAbs 3) 8 = twosComplementLE64 3 :=
  ⟨((C3_int_encoder 3).2.1 (by decide)).2, (C3_int_encoder 3).2.2 (by decide) (by decide)⟩

theorem daoFeeArg_eq (p : Nat) :
    (20 : ℚ) / ((p : ℚ) / 100) * 1000000000 = (20 * 100 * 1000000000 : ℚ) / p := by
  rcases eq_or_ne p 0 with h | h
  · simp [h]
  · have : (p : ℚ) ≠ 0 := Nat.cast_ne_zero.mpr h
    field_simp

theorem featuredFeeArg_eq (days p : Nat) :
    ((Client.featuredTotalUsdFee days : ℚ)) / ((p : ℚ) / 100) * 1000000000 =
      (20 * days * 100 * 1000000000 : ℚ) / p := by
  rcases eq_or_ne p 0 with h | h
  · simp [h]
  · have : (p : ℚ) ≠ 0 := Nat.cast_ne_zero.mpr h
    rw [Client.featuredTotalUsdFee]
    push_cast
    field_simp

/-- **C5** (corrected, counterexample): the fee the client code derives
is `Math.round`, not `ceil`, of the fiat-to-native quotient: at a
caller-supplied unit price of 7 cents per SOL the code's $20 fee is
285714285714 lamports (rounded), while the spec's ceiling formula gives
285714285715. -/
theorem C5_counterexample :
    Client.daoExpectedFeeInLamports 7 = 285714285714 ∧
    specCeilFeeLamports 20 7 = 285714285715 ∧
    Client.daoExpectedFeeInLamports 7 ≠ specCeilFeeLamports 20 7 := by
  have h1 : Client.daoExpectedFeeInLamports 7 = 285714285714 := by
    norm_num [Client.daoExpectedFeeInLamports, Client.daoExpectedFeeInSol, jsRound]
  have h2 : specCeilFeeLamports 20 7 = 285714285715 := by
    norm_num [specCeilFeeLamports, Int.ceil_eq_iff]
  exact ⟨h1, h2, by rw [h1, h2]; decide⟩

/-- **C5** (amended): for every paid instruction kind the
native-currency fee is the single formula
`round(fiat_target * fiat_scale / unit_price)` — JavaScript
`Math.round`, i.e. half-up rounding, not `ceil` — with a fixed $20 fiat
target, multiplied by the number of days for the time-bounded Featured
promotion (Featured at one day coincides with the others); in
particular, with a $20 target and a caller-supplied unit price of 10000
cents the derived fee is exactly 0.2 SOL, i.e. 200000000 lamports. -/
theorem C5_fee_formula (p days : Nat) :
    Client.daoExpectedFeeInLamports p =
      jsRound ((20 * 100 * 1000000000 : ℚ) / p) ∧
    Client.moduleExpectedFeeInLamports p = Client.daoExpectedFeeInLamports p ∧
    Client.featuredExpectedFeeInLamports days p =
      jsRound ((20 * days * 100 * 1000000000 : ℚ) / p) ∧
    Client.featuredExpectedFeeInLamports 1 p = Client.daoExpectedFeeInLamports p ∧
    Client.daoExpectedFeeInSol 10000 = 1 / 5 ∧
    Client.daoExpectedFeeInLamports 10000 = 200000000 := by
  refine ⟨?_, rfl, ?_, ?_, ?_, ?_⟩
  · rw [Client.daoExpectedFeeInLamports, Client.daoExpectedFeeInSol, daoFeeArg_eq]
  · rw [Client.featuredExpectedFeeInLamports, Client.featuredExpectedFeeInSol,
      featuredFeeArg_eq]
  · rw [Client.featuredExpectedFeeInLamports, Client.featuredExpectedFeeInSol,
      Client.daoExpectedFeeInLamports, Client.daoExpectedFeeInSol]
    norm_num [Client.featuredTotalUsdFee]
  · norm_num [Client.daoExpectedFeeInSol]
  · norm_num [Client.daoExpectedFeeInLamports, Client.daoExpectedFeeInSol, jsRound]

/-- **C4** (confirmed): encoding a Vote instruction with vote value
`"for"` and proposal id `"ABC"` yields exactly the 15 bytes
`02 | 03 00 00 00 66 6F 72 | 03 00 00 00 41 42 43`. -/
theorem C4_vote_for_abc :
    serializeVoteInstruction "for" "ABC" =
      [0x02, 0x03, 0x00, 0x00, 0x00, 102, 111, 114,
       0x03, 0x00, 0x00, 0x00, 65, 66, 67] ∧
    (serializeVoteInstruction "for" "ABC").length = 15 := by
  refine ⟨by decide, by decide⟩

/-- **C6** (confirmed): for every `module_type` outside `{"POD","POL"}`,
both Module builders (`createModuleTransaction` in the webapp source and
`activateModule` in the example client) fail with the validation error
and with an empty effect trace: no price fetch, no keypair generation
for the new record, and no encoding has taken place. -/
theorem C6_module_validation (env : BuildEnv) (w payer daoId moduleType : String)
    (o : Option Nat) (h1 : moduleType ≠ "POD") (h2 : moduleType ≠ "POL") :
    createModuleTransaction env (some w) daoId moduleType o =
      (.error .validationError, []) ∧
    Client.activateModule env payer daoId moduleType o =
      (.error .validationError, []) := by
  constructor
  · simp [createModuleTransaction, h1, h2]
  · simp [Client.activateModule, h1, h2]

/-- **C6** witness: the theorem applied to the concrete invalid module
type `"XYZ"`. -/
theorem C6_witness :
    createModuleTransaction ⟨10000, "K", "H"⟩ (some "W") "DAO" "XYZ" (some 10000) =
      (.error .validationError, []) :=
  (C6_module_validation ⟨10000, "K", "H"⟩ "W" "P" "DAO" "XYZ" (some 10000)
    (by decide) (by decide)).1

/-- **C7** (confirmed): every successfully assembled transaction carries
exactly the account list
`[payer(signer, writable), new-identity(signer, writable),
system-program(non-signer, read-only), fee-recipient(non-signer,
writable)]` for CreateDao, and the same list with the parent entity
reference (DAO or proposal key, non-signer, read-only) inserted third
for CreateProposal, Vote, Featured and Module. -/
theorem C7_account_lists (env : BuildEnv)
    (w name description ds tw tg ig tk wb tr pf ta daoId podId voteValue
     proposalId moduleType : String) (startTime endTime : Int) (o : Option Nat)
    (h1 : (createDaoTransaction env (some w) name description ds tw tg ig tk wb
      tr pf ta o).1.isOk = true)
    (h2 : (createProposalTransaction env (some w) name description daoId podId
      startTime endTime).1.isOk = true)
    (h3 : (createVoteTransaction env (some w) voteValue
      proposalId).1.isOk = true)
    (h4 : (createFeaturedTransaction env (some w) daoId o).1.isOk = true)
    (h5 : (createModuleTransaction env (some w) daoId moduleType o).1.isOk = true) :
    (createDaoTransaction env (some w) name description ds tw tg ig tk wb tr pf
        ta o).1.map
        (fun r => r.transaction.instructions.map TransactionInstruction.keys) =
      .ok [[⟨w, true, true⟩, ⟨env.generatedKey, true, true⟩,
            ⟨systemProgramId, false, false⟩, ⟨FEE_ADDRESS, false, true⟩]] ∧
    (createProposalTransaction env (some w) name description daoId podId
        startTime endTime).1.map
        (fun r => r.transaction.instructions.map TransactionInstruction.keys) =
      .ok [[⟨w, true, true⟩, ⟨env.generatedKey, true, true⟩,
            ⟨daoId, false, false⟩,
            ⟨systemProgramId, false, false⟩, ⟨FEE_ADDRESS, false, true⟩]] ∧
    (createVoteTransaction env (some w) voteValue proposalId).1.map
        (fun r => r.transaction.instructions.map TransactionInstruction.keys) =
      .ok [[⟨w, true, true⟩, ⟨env.generatedKey, true, true⟩,
            ⟨proposalId, false, false⟩,
            ⟨systemProgramId, false, false⟩, ⟨FEE_ADDRESS, false, true⟩]] ∧
    (createFeaturedTransaction env (some w) daoId o).1.map
        (fun r => r.transaction.instructions.map TransactionInstruction.keys) =
      .ok [[⟨w, true, true⟩, ⟨env.generatedKey, true, true⟩,
            ⟨daoId, false, false⟩,
            ⟨systemProgramId, false, false⟩, ⟨FEE_ADDRESS, false, true⟩]] ∧
    (createModuleTransaction env (some w) daoId moduleType o).1.map
        (fun r => r.transaction.instructions.map TransactionInstruction.keys) =
      .ok [[⟨w, true, true⟩, ⟨env.generatedKey, true, true⟩,
            ⟨daoId, false, false⟩,
            ⟨systemProgramId, false, false⟩, ⟨FEE_ADDRESS, false, true⟩]] := by
  refine ⟨?_, ?_, ?_, ?_, ?_⟩
  · revert h1
    unfold createDaoTransaction
    cases hs : serializeCreateDaoInstruction name description ds tw tg ig tk wb
        tr pf ta (resolvePrice o env).1 <;>
      simp [hs, assemble, Except.isOk, Except.toBool, Except.map]
  · revert h2
    unfold createProposalTransaction
    cases hs : serializeCreateProposalInstruction name description daoId podId
        startTime endTime <;>
      cases hpk : isValidPublicKey daoId <;>
        simp [hs, hpk, assemble, Except.isOk, Except.toBool, Except.map]
  · revert h3
    unfold createVoteTransaction
    cases hpk : isValidPublicKey proposalId <;>
      simp [hpk, assemble, Except.isOk, Except.toBool, Except.map]
  · revert h4
    unfold createFeaturedTransaction
    cases hs : serializeFeaturedInstruction daoId (resolvePrice o env).1 <;>
      cases hpk : isValidPublicKey daoId <;>
        simp [hs, hpk, assemble, Except.isOk, Except.toBool, Except.map]
  · revert h5
    by_cases hvv : moduleType ≠ "POD" ∧ moduleType ≠ "POL"
    · simp [createModuleTransaction, hvv, Except.isOk, Except.toBool]
    · cases hs : serializeModulesInstruction daoId moduleType
          (resolvePrice o env).1 <;>
        cases hpk : isValidPublicKey daoId <;>
          simp [createModuleTransaction, hvv, hs, hpk, assemble, Except.isOk,
            Except.toBool, Except.map]

/-- **C7** witness: the theorem applied to a concrete successful build
of each kind. -/
theorem C7_witness :
    (createDaoTransaction ⟨10000, "K", "H"⟩ (some "W") "a" "a" "a" "a" "a" "a"
        "a" "a" "a" "a" "a" (some 10000)).1.map
        (fun r => r.transaction.instructions.map TransactionInstruction.keys) =
      .ok [[⟨"W", true, true⟩, ⟨"K", true, true⟩,
            ⟨systemProgramId, false, false⟩, ⟨FEE_ADDRESS, false, true⟩]] ∧
    (createModuleTransaction ⟨10000, "K", "H"⟩ (some "W") "11111111111111111111111111111111" "POD"
        (some 10000)).1.map
        (fun r => r.transaction.instructions.map TransactionInstruction.keys) =
      .ok [[⟨"W", true, true⟩, ⟨"K", true, true⟩,
            ⟨"11111111111111111111111111111111", false, false⟩,
            ⟨systemProgramId, false, false⟩, ⟨FEE_ADDRESS, false, true⟩]] :=
  ⟨(C7_account_lists ⟨10000, "K", "H"⟩ "W" "a" "a" "a" "a" "a" "a" "a" "a" "a"
      "a" "a" "11111111111111111111111111111111" "" "for" "11111111111111111111111111111111" "POD" 1 2 (some 10000) (by decide)
      (by decide) (by decide) (by decide) (by decide)).1,
   (C7_account_lists ⟨10000, "K", "H"⟩ "W" "a" "a" "a" "a" "a" "a" "a" "a" "a"
      "a" "a" "11111111111111111111111111111111" "" "for" "11111111111111111111111111111111" "POD" 1 2 (some 10000) (by decide)
      (by decide) (by decide) (by decide) (by decide)).2.2.2.2⟩

/-- **C8** (confirmed): every successfully built envelope is partially
signed by exactly the freshly generated record identity, has the fee
payer set to the caller wallet, and does not carry the wallet's
signature (the wallet key, being distinct from the generated key, is
not in the signature list). -/
theorem C8_partial_signing (env : BuildEnv)
    (w name description ds tw tg ig tk wb tr pf ta daoId podId voteValue
     proposalId moduleType : String) (startTime endTime : Int) (o : Option Nat)
    (h1 : (createDaoTransaction env (some w) name description ds tw tg ig tk wb
      tr pf ta o).1.isOk = true)
    (h2 : (createProposalTransaction env (some w) name description daoId podId
      startTime endTime).1.isOk = true)
    (h3 : (createVoteTransaction env (some w) voteValue
      proposalId).1.isOk = true)
    (h4 : (createFeaturedTransaction env (some w) daoId o).1.isOk = true)
    (h5 : (createModuleTransaction env (some w) daoId moduleType o).1.isOk = true) :
    (createDaoTransaction env (some w) name description ds tw tg ig tk wb tr pf
        ta o).1.map
        (fun r => (r.transaction.signedBy, r.transaction.feePayer)) =
      .ok ([env.generatedKey], some w) ∧
    (createProposalTransaction env (some w) name description daoId podId
        startTime endTime).1.map
        (fun r => (r.transaction.signedBy, r.transaction.feePayer)) =
      .ok ([env.generatedKey], some w) ∧
    (createVoteTransaction env (some w) voteValue proposalId).1.map
        (fun r => (r.transaction.signedBy, r.transaction.feePayer)) =
      .ok ([env.generatedKey], some w) ∧
    (createFeaturedTransaction env (some w) daoId o).1.map
        (fun r => (r.transaction.signedBy, r.transaction.feePayer)) =
      .ok ([env.generatedKey], some w) ∧
    (createModuleTransaction env (some w) daoId moduleType o).1.map
        (fun r => (r.transaction.signedBy, r.transaction.feePayer)) =
      .ok ([env.generatedKey], some w) ∧
    (w ≠ env.generatedKey → w ∉ ([env.generatedKey] : List String)) := by
  refine ⟨?_, ?_, ?_, ?_, ?_, fun hne => by simp [hne]⟩
  · revert h1
    unfold createDaoTransaction
    cases hs : serializeCreateDaoInstruction name description ds tw tg ig tk wb
        tr pf ta (resolvePrice o env).1 <;>
      simp [hs, assemble, Except.isOk, Except.toBool, Except.map]
  · revert h2
    unfold createProposalTransaction
    cases hs : serializeCreateProposalInstruction name description daoId podId
        startTime endTime <;>
      cases hpk : isValidPublicKey daoId <;>
        simp [hs, hpk, assemble, Except.isOk, Except.toBool, Except.map]
  · revert h3
    unfold createVoteTransaction
    cases hpk : isValidPublicKey proposalId <;>
      simp [hpk, assemble, Except.isOk, Except.toBool, Except.map]
  · revert h4
    unfold createFeaturedTransaction
    cases hs : serializeFeaturedInstruction daoId (resolvePrice o env).1 <;>
      cases hpk : isValidPublicKey daoId <;>
        simp [hs, hpk, assemble, Except.isOk, Except.toBool, Except.map]
  · revert h5
    by_cases hvv : moduleType ≠ "POD" ∧ moduleType ≠ "POL"
    · simp [createModuleTransaction, hvv, Except.isOk, Except.toBool]
    · cases hs : serializeModulesInstruction daoId moduleType
          (resolvePrice o env).1 <;>
        cases hpk : isValidPublicKey daoId <;>
          simp [createModuleTransaction, hvv, hs, hpk, assemble, Except.isOk,
            Except.toBool, Except.map]

/-- **C8** witness: the theorem applied to a concrete successful
CreateDao build with wallet key distinct from the generated key. -/
theorem C8_witness :
    (createDaoTransaction ⟨10000, "K", "H"⟩ (some "W") "a" "a" "a" "a" "a" "a"
        "a" "a" "a" "a" "a" (some 10000)).1.map
        (fun r => (r.transaction.signedBy, r.transaction.feePayer)) =
      .ok (["K"], some "W") :=
  (C8_partial_signing ⟨10000, "K", "H"⟩ "W" "a" "a" "a" "a" "a" "a" "a" "a" "a"
    "a" "a" "11111111111111111111111111111111" "" "for" "11111111111111111111111111111111" "POD" 1 2 (some 10000) (by decide)
    (by decide) (by decide) (by decide) (by decide)).1

/-- **C9** (confirmed): whenever a serializer produces a payload, its
first byte is the stable instruction tag of its kind — 0 for CreateDao,
1 for CreateProposal, 2 for Vote, 3 for Featured, 4 for Module — in
both builder versions (the webapp source and the example client, whose
Featured variant differs by a `days` field but keeps tag 3). -/
theorem C9_instruction_tags
    (name description ds tw tg ig tk wb tr pf ta daoId podId voteValue
     proposalId moduleType : String) (startTime endTime : Int) (p days : Nat)
    (h1 : (serializeCreateDaoInstruction name description ds tw tg ig tk wb tr
      pf ta p).isOk = true)
    (h2 : (serializeCreateProposalInstruction name description daoId podId
      startTime endTime).isOk = true)
    (h4 : (serializeFeaturedInstruction daoId p).isOk = true)
    (h5 : (serializeModulesInstruction daoId moduleType p).isOk = true)
    (h6 : (Client.serializeFeaturedInstruction daoId days p).isOk = true)
    (h7 : (Client.serializeModulesInstruction daoId moduleType p).isOk = true) :
    (serializeCreateDaoInstruction name description ds tw tg ig tk wb tr pf ta
        p).map List.head? = .ok (some 0) ∧
    (serializeCreateProposalInstruction name description daoId podId startTime
        endTime).map List.head? = .ok (some 1) ∧
    (serializeVoteInstruction voteValue proposalId).head? = some 2 ∧
    (serializeFeaturedInstruction daoId p).map List.head? = .ok (some 3) ∧
    (serializeModulesInstruction daoId moduleType p).map List.head? =
      .ok (some 4) ∧
    (Client.serializeFeaturedInstruction daoId days p).map List.head? =
      .ok (some 3) ∧
    (Client.serializeModulesInstruction daoId moduleType p).map List.head? =
      .ok (some 4) := by
  refine ⟨?_, ?_, rfl, ?_, ?_, ?_, ?_⟩
  · revert h1
    unfold serializeCreateDaoInstruction
    cases hs : bnToArrayLE p 8 <;>
      simp [hs, Except.isOk, Except.toBool, Except.map]
  · revert h2
    unfold serializeCreateProposalInstruction
    cases hs : bnToArrayLE startTime 8 <;>
      cases ht : bnToArrayLE endTime 8 <;>
        simp [hs, ht, Except.isOk, Except.toBool, Except.map]
  · revert h4
    unfold serializeFeaturedInstruction
    cases hs : bnToArrayLE p 8 <;>
      simp [hs, Except.isOk, Except.toBool, Except.map]
  · revert h5
    unfold serializeModulesInstruction
    cases hs : bnToArrayLE p 8 <;>
      simp [hs, Except.isOk, Except.toBool, Except.map]
  · revert h6
    unfold Client.serializeFeaturedInstruction
    cases hs : bnToArrayLE days 8 <;>
      cases ht : bnToArrayLE p 8 <;>
        simp [hs, ht, Except.isOk, Except.toBool, Except.map]
  · revert h7
    unfold Client.serializeModulesInstruction
    cases hs : bnToArrayLE p 8 <;>
      simp [hs, Except.isOk, Except.toBool, Except.map]

/-- **C9** witness: the theorem applied to concrete successful
serializations. -/
theorem C9_witness :
    (serializeCreateDaoInstruction "a" "a" "a" "a" "a" "a" "a" "a" "a" "a" "a"
        10000).map List.head? = .ok (some 0) ∧
    (Client.serializeFeaturedInstruction "DAO" 7 10000).map List.head? =
      .ok (some 3) :=
  ⟨(C9_instruction_tags "a" "a" "a" "a" "a" "a" "a" "a" "a" "a" "a" "DAO" ""
      "for" "PROP" "POD" 1 2 10000 7 (by decide) (by decide) (by decide)
      (by decide) (by decide) (by decide)).1,
   (C9_instruction_tags "a" "a" "a" "a" "a" "a" "a" "a" "a" "a" "a" "DAO" ""
      "for" "PROP" "POD" 1 2 10000 7 (by decide) (by decide) (by decide)
      (by decide) (by decide) (by decide)).2.2.2.2.2.1⟩

/-- **C10** (confirmed): in the webapp builders a caller-supplied price
override of `0` is falsy, hence treated exactly like an absent override:
the builder fetches the live price (one `fetchPrice` effect) and encodes
the fetched value, so a price of `0` can never be encoded via the
override parameter — a resolved price of `0` can only come from the
fetched price itself. -/
theorem C10_zero_override (env : BuildEnv) (wallet : Option String)
    (name description ds tw tg ig tk wb tr pf ta daoId moduleType : String)
    (q : Nat) :
    createDaoTransaction env wallet name description ds tw tg ig tk wb tr pf ta
        (some 0) =
      createDaoTransaction env wallet name description ds tw tg ig tk wb tr pf
        ta none ∧
    createFeaturedTransaction env wallet daoId (some 0) =
      createFeaturedTransaction env wallet daoId none ∧
    createModuleTransaction env wallet daoId moduleType (some 0) =
      createModuleTransaction env wallet daoId moduleType none ∧
    resolvePrice (some 0) env = (env.fetchedPrice, [.fetchPrice]) ∧
    ((resolvePrice (some q) env).1 = 0 → env.fetchedPrice = 0) := by
  refine ⟨by cases wallet <;> rfl, by cases wallet <;> rfl,
    by cases wallet <;> rfl, rfl, ?_⟩
  simp only [resolvePrice]
  split
  · exact fun h => h
  · next hq => exact fun h => absurd h hq

/-- **C10** witness: the theorem applied at a concrete environment whose
fetched price is zero, with override `0`. -/
theorem C10_witness :
    createFeaturedTransaction ⟨0, "K", "H"⟩ (some "W") "DAO" (some 0) =
      createFeaturedTransaction ⟨0, "K", "H"⟩ (some "W") "DAO" none ∧
    (⟨0, "K", "H"⟩ : BuildEnv).fetchedPrice = 0 :=
  ⟨(C10_zero_override ⟨0, "K", "H"⟩ (some "W") "a" "a" "a" "a" "a" "a" "a" "a"
      "a" "a" "a" "DAO" "POD" 0).2.1,
   (C10_zero_override ⟨0, "K", "H"⟩ (some "W") "a" "a" "a" "a" "a" "a" "a" "a"
      "a" "a" "a" "DAO" "POD" 0).2.2.2.2 (by decide)⟩

end SolanaDao
